import Mathlib

/-!
Verification of the arrival-estimation and proximity-ranking core of a
Telegram bus bot (bot.ts).  JavaScript numbers are modelled as exact
rationals; the two transcendental geometry helpers of the source
(haversineImproved, utmToWgs84) are carried as function parameters of the
environment, since their floating-point trigonometry has no executable
exact counterpart.  Where the source mutates local variables, the model
threads the successive values explicitly.
-/

namespace BusBot

/-- Confidence tag attached to every derived estimate ('high' / 'medium' / 'low'). -/
inductive Confidence
| high
| medium
| low
deriving DecidableEq

/-- mathRound models JS Math.round on an exact rational: the floor of q + 1/2
(halves round toward positive infinity).  Written with integer division by the
doubled denominator, which is Euclidean division and hence a floor because the
denominator is positive. -/
def mathRound (q : ℚ) : ℤ := (2 * q.num + (q.den : ℤ)) / (2 * (q.den : ℤ))

-- PRECISION_CONSTANTS (bot.ts 21-33); only the ones the verified core reads.
def MAX_DATA_AGE_MINUTES : ℤ := 15
def MAX_SPEED_KMH : ℚ := 60
def DEFAULT_SPEED_KMH : ℚ := 15
def MAX_SEARCH_RADIUS_M : ℚ := 5000
def TRAFFIC_FACTOR : ℚ := 1.3
def ACCELERATION_FACTOR : ℚ := 1.2
def PEAK_HOURS : List (ℕ × ℕ) := [(7, 9), (17, 19)]
def NIGHT_HOURS : ℕ × ℕ := (22, 6)

/-- getTrafficFactor (bot.ts 560-581).  The source reads the clock; here the
day of week (JS getDay, 0 = Sunday) and the hour of day are arguments. -/
def getTrafficFactor (dayOfWeek hour : ℕ) : ℚ :=
  if dayOfWeek = 0 ∨ dayOfWeek = 6 then 1.1
  else if PEAK_HOURS.any (fun p => decide (p.1 ≤ hour) && decide (hour ≤ p.2)) then 1.6
  else if NIGHT_HOURS.1 ≤ hour ∨ hour ≤ NIGHT_HOURS.2 then 0.8
  else TRAFFIC_FACTOR

/-- vehicle.properties fields consulted by the validators and the estimator.
A JSON field that is absent or non-numeric is modelled as none; timestamps
are milliseconds since the epoch, as produced by Date.getTime. -/
structure VehicleProps where
  latitude : Option ℚ
  longitude : Option ℚ
  datalocal : Option ℤ
  velocidade : Option ℚ
  numerolinha : Option String
deriving DecidableEq

/-- isVehicleDataValid (bot.ts 583-619); now is Date.now() at ingestion.
JS truthiness makes a coordinate equal to 0 count as missing; the service
bounding box, the 15-minute staleness window and the 60 km/h speed cap are
checked exactly as in the source (strict comparisons rejecting, so the
boundary values themselves are accepted). -/
def isVehicleDataValid (now : ℤ) (p : VehicleProps) : Bool :=
  match p.latitude, p.longitude with
  | some lat, some lon =>
    if lat = 0 ∨ lon = 0 then false
    else if lat < -16.2 ∨ lat > -15.3 ∨ lon < -48.3 ∨ lon > -47.2 then false
    else
      match p.datalocal with
      | some t =>
        let timeDiff := now - t
        let maxAge : ℤ := MAX_DATA_AGE_MINUTES * 60 * 1000
        if timeDiff > maxAge ∨ timeDiff < 0 then false
        else
          match p.velocidade with
          | some speed => if speed < 0 ∨ speed > MAX_SPEED_KMH then false else true
          | none => true
      | none => false
  | _, _ => false

/-- jsTrim is an executable model of JS String.prototype.trim: strip leading
and trailing whitespace (the Lean core String.trim does not reduce in the
kernel, so the character list is processed directly). -/
def jsTrim (s : String) : String :=
  ⟨((s.data.dropWhile Char.isWhitespace).reverse.dropWhile Char.isWhitespace).reverse⟩

/-- jsToUpper is an executable model of JS String.prototype.toUpperCase over
the character list. -/
def jsToUpper (s : String) : String := ⟨s.data.map Char.toUpper⟩

/-- isVehicleInOperation (bot.ts 621-629): the line identifier must be present
and not blank after trimming (JS also rejects the empty string as falsy before
trimming, which trimming subsumes; both tests are kept). -/
def isVehicleInOperation (p : VehicleProps) : Bool :=
  match p.numerolinha with
  | some s => if s = "" then false else if jsTrim s = "" then false else true
  | none => false

-- The factor strings pushed by calculateArrivalTime (bot.ts 647-669); the
-- traffic entry drops the interpolated multiplier, which no caller reads.
def realTag : String := "velocidade real"
def estTag : String := "velocidade estimada"
def proxTag : String := "proximidade"
def farTag : String := "distância"
def trafficTag : String := "trânsito"
def accelTag : String := "aceleração/frenagem"

/-- usedRealSpeed: the test props.velocidade > 0 of bot.ts 644 (false when the
field is absent, as the JS comparison with undefined is). -/
def usedRealSpeed (velocidade : Option ℚ) : Bool :=
  match velocidade with
  | some s => decide (s > 0)
  | none => false

/-- Result record of calculateArrivalTime. -/
structure ArrivalResult where
  timeMinutes : ℤ
  confidence : Confidence
  factors : List String
deriving DecidableEq

/-- calculateArrivalTime (bot.ts 631-680).  The great-circle distance the
source derives from the coordinates is the argument distance (metres), and
the getTrafficFactor() call is the argument trafficFactor; speeds are km/h.
The successive reassignments of speedKmh, confidence and factors in the
source become the numbered lets. -/
def calculateArrivalTime (distance : ℚ) (velocidade : Option ℚ) (trafficFactor : ℚ) :
    ArrivalResult :=
  let speedKmh0 : ℚ :=
    match velocidade with
    | some s => if s > 0 then s else DEFAULT_SPEED_KMH
    | none => DEFAULT_SPEED_KMH
  let confidence0 : Confidence := if usedRealSpeed velocidade then .high else .medium
  let factors0 : List String := if usedRealSpeed velocidade then [realTag] else [estTag]
  let speedKmh1 : ℚ :=
    if distance < 500 then min speedKmh0 12
    else if distance > 2000 then min speedKmh0 25
    else speedKmh0
  let factors1 : List String :=
    if distance < 500 then factors0 ++ [proxTag]
    else if distance > 2000 then factors0 ++ [farTag]
    else factors0
  let speedKmh2 : ℚ := speedKmh1 / trafficFactor
  let factors2 : List String := factors1 ++ [trafficTag]
  let speedMs : ℚ := speedKmh2 * 1000 / 3600
  let timeSeconds : ℚ := distance / speedMs * ACCELERATION_FACTOR
  let factors3 : List String := factors2 ++ [accelTag]
  let timeMinutes : ℤ := max 1 (mathRound (timeSeconds / 60))
  let confidence : Confidence :=
    if realTag ∈ factors3 ∧ distance < 2000 then .high
    else if distance > 3000 ∨ realTag ∉ factors3 then .low
    else confidence0
  { timeMinutes := timeMinutes, confidence := confidence, factors := factors3 }

/-- The factor list always records which speed source was used: the literal
"velocidade real" appears in the output factors exactly when a positive
reported speed was taken. -/
theorem realTag_mem_factors (distance trafficFactor : ℚ) (velocidade : Option ℚ) :
    (realTag ∈ (calculateArrivalTime distance velocidade trafficFactor).factors) ↔
      usedRealSpeed velocidade = true := by
  cases h : usedRealSpeed velocidade
  all_goals
    simp only [calculateArrivalTime, h, if_true, if_false, Bool.false_eq_true,
      iff_false, iff_true, Bool.true_eq_false]
    split_ifs
    all_goals simp [realTag, estTag, proxTag, farTag, trafficTag, accelTag]

/-- C9: the arrival estimator never reports less than one minute, for every
distance, reported speed and traffic factor (the source takes
Math.max(1, Math.round(...))). -/
theorem arrival_time_floor (distance : ℚ) (velocidade : Option ℚ) (trafficFactor : ℚ) :
    1 ≤ (calculateArrivalTime distance velocidade trafficFactor).timeMinutes := by
  simp only [calculateArrivalTime]
  exact le_max_left _ _

/-- The final confidence of calculateArrivalTime, as a function of the speed
source and the distance alone: the re-derivation chain of bot.ts 673-677 has
no assignment in its remaining case, so the initial confidence from the
speed-selection step survives there. -/
theorem arrival_confidence_eq (distance trafficFactor : ℚ) (velocidade : Option ℚ) :
    (calculateArrivalTime distance velocidade trafficFactor).confidence =
      (if usedRealSpeed velocidade = true ∧ distance < 2000 then Confidence.high
       else if distance > 3000 ∨ usedRealSpeed velocidade = false then Confidence.low
       else if usedRealSpeed velocidade = true then Confidence.high else Confidence.medium) := by
  cases h : usedRealSpeed velocidade <;>
    simp only [calculateArrivalTime, h, if_true, if_false] <;>
    split_ifs <;>
    simp_all [realTag, estTag, proxTag, farTag, trafficTag, accelTag]

/-- C1 counterexample: a vehicle with a real reported speed of 20 km/h at
2500 m — inside [2000 m, 3000 m] — gets final confidence high, not the
medium the claim requires: the re-derivation pass does not override the
initial high from the speed-selection step. -/
theorem confidence_midrange_high :
    (calculateArrivalTime 2500 (some 20) (13/10)).confidence = Confidence.high ∧
    ¬ (calculateArrivalTime 2500 (some 20) (13/10)).confidence = Confidence.medium := by
  have h : (calculateArrivalTime 2500 (some 20) (13/10)).confidence = Confidence.high := by
    rw [arrival_confidence_eq]
    norm_num [usedRealSpeed]
  exact ⟨h, by simp [h]⟩

/-- C1 amended: the final confidence is high when a real positive speed was
used and the distance is at most 3000 m (the downgrade pass leaves the initial
high untouched between 2000 m and 3000 m), low when the distance exceeds
3000 m or no real speed was available, and medium is never the final value. -/
theorem confidence_rederivation (distance trafficFactor : ℚ) (velocidade : Option ℚ) :
    (usedRealSpeed velocidade = true ∧ distance ≤ 3000 →
      (calculateArrivalTime distance velocidade trafficFactor).confidence = Confidence.high) ∧
    (distance > 3000 ∨ usedRealSpeed velocidade = false →
      (calculateArrivalTime distance velocidade trafficFactor).confidence = Confidence.low) ∧
    ¬ (calculateArrivalTime distance velocidade trafficFactor).confidence = Confidence.medium := by
  rw [arrival_confidence_eq]
  cases h : usedRealSpeed velocidade
  all_goals split_ifs with h1 h2
  all_goals simp_all
  all_goals linarith

/-- Witness for the amended C1 at a concrete mid-range input. -/
theorem confidence_rederivation_witness :
    (calculateArrivalTime 2600 (some 18) (13/10)).confidence = Confidence.high :=
  (confidence_rederivation 2600 (13/10) (some 18)).1 ⟨by norm_num [usedRealSpeed], by norm_num⟩

/-- C2 counterexample: for the single vehicle 400 m away with reported speed
0 km/h and traffic factor 1.3 (a weekday at noon), the estimator does not
return the claimed confidence medium with 2 minutes. -/
theorem scenario_400m_claim_false :
    ¬ ((calculateArrivalTime 400 (some 0) (getTrafficFactor 3 12)).confidence = Confidence.medium ∧
       (calculateArrivalTime 400 (some 0) (getTrafficFactor 3 12)).timeMinutes = 2) := by
  have ht : getTrafficFactor 3 12 = 13 / 10 := by
    norm_num [getTrafficFactor, PEAK_HOURS, NIGHT_HOURS, TRAFFIC_FACTOR]
  have hc : (calculateArrivalTime 400 (some 0) (getTrafficFactor 3 12)).confidence =
      Confidence.low := by
    rw [ht, arrival_confidence_eq]
    norm_num [usedRealSpeed]
  simp [hc]

/-- C2 amended: with speed 0 the default 15 km/h is capped to 12 km/h at
400 m, the capped speed is divided by the 1.3 traffic factor (slowing the
bus, so the travel time is multiplied by 1.3), giving
400/(12/1.3/3.6) = 156 s, times the 1.2 acceleration factor 187.2 s, which
rounds to 3 minutes; and since no real speed was available the re-derived
confidence is low, not medium. -/
theorem scenario_400m_result :
    (calculateArrivalTime 400 (some 0) (getTrafficFactor 3 12)).timeMinutes = 3 ∧
    (calculateArrivalTime 400 (some 0) (getTrafficFactor 3 12)).confidence = Confidence.low ∧
    getTrafficFactor 3 12 = 13 / 10 := by
  have ht : getTrafficFactor 3 12 = 13 / 10 := by
    norm_num [getTrafficFactor, PEAK_HOURS, NIGHT_HOURS, TRAFFIC_FACTOR]
  refine ⟨?_, ?_, ht⟩
  · rw [ht]
    norm_num [calculateArrivalTime, usedRealSpeed, DEFAULT_SPEED_KMH, ACCELERATION_FACTOR,
      mathRound]
  · rw [ht, arrival_confidence_eq]
    norm_num [usedRealSpeed]

/-- The peak-hour loop over PEAK_HOURS amounts to membership in one of the two
inclusive windows 7-9 and 17-19. -/
theorem peak_any_eq (hour : ℕ) :
    (PEAK_HOURS.any (fun p => decide (p.1 ≤ hour) && decide (hour ≤ p.2))) =
      decide ((7 ≤ hour ∧ hour ≤ 9) ∨ (17 ≤ hour ∧ hour ≤ 19)) := by
  simp [PEAK_HOURS]

/-- getTrafficFactor written with its branch conditions spelled out. -/
theorem getTrafficFactor_eq (dayOfWeek hour : ℕ) :
    getTrafficFactor dayOfWeek hour =
      (if dayOfWeek = 0 ∨ dayOfWeek = 6 then 1.1
       else if (7 ≤ hour ∧ hour ≤ 9) ∨ (17 ≤ hour ∧ hour ≤ 19) then 1.6
       else if 22 ≤ hour ∨ hour ≤ 6 then 0.8
       else 1.3) := by
  rw [getTrafficFactor, peak_any_eq]
  simp only [NIGHT_HOURS, TRAFFIC_FACTOR, decide_eq_true_eq]

/-- C4: the traffic multiplier follows the stated precedence — weekend 1.1
first (so Saturday 8:00 gives 1.1 although 8 lies in a peak window), then
peak hours 1.6, then the midnight-wrapping night window 0.8, else the 1.3
default — and the branches are taken in exactly this order. -/
theorem traffic_factor_precedence :
    getTrafficFactor 6 8 = 1.1 ∧
    (∀ dayOfWeek hour : ℕ, (dayOfWeek = 0 ∨ dayOfWeek = 6) →
      getTrafficFactor dayOfWeek hour = 1.1) ∧
    (∀ dayOfWeek hour : ℕ, ¬ (dayOfWeek = 0 ∨ dayOfWeek = 6) →
      ((7 ≤ hour ∧ hour ≤ 9) ∨ (17 ≤ hour ∧ hour ≤ 19)) →
      getTrafficFactor dayOfWeek hour = 1.6) ∧
    (∀ dayOfWeek hour : ℕ, ¬ (dayOfWeek = 0 ∨ dayOfWeek = 6) →
      ¬ ((7 ≤ hour ∧ hour ≤ 9) ∨ (17 ≤ hour ∧ hour ≤ 19)) →
      (22 ≤ hour ∨ hour ≤ 6) →
      getTrafficFactor dayOfWeek hour = 0.8) ∧
    (∀ dayOfWeek hour : ℕ, ¬ (dayOfWeek = 0 ∨ dayOfWeek = 6) →
      ¬ ((7 ≤ hour ∧ hour ≤ 9) ∨ (17 ≤ hour ∧ hour ≤ 19)) →
      ¬ (22 ≤ hour ∨ hour ≤ 6) →
      getTrafficFactor dayOfWeek hour = 1.3) := by
  refine ⟨?_, ?_, ?_, ?_, ?_⟩
  · rw [getTrafficFactor_eq]
    norm_num
  · intro dayOfWeek hour h1
    rw [getTrafficFactor_eq, if_pos h1]
  · intro dayOfWeek hour h1 h2
    rw [getTrafficFactor_eq, if_neg h1, if_pos h2]
  · intro dayOfWeek hour h1 h2 h3
    rw [getTrafficFactor_eq, if_neg h1, if_neg h2, if_pos h3]
  · intro dayOfWeek hour h1 h2 h3
    rw [getTrafficFactor_eq, if_neg h1, if_neg h2, if_neg h3]

/-- Witness for C4: the weekend branch fires on Saturday 8:00. -/
theorem traffic_factor_precedence_witness : getTrafficFactor 6 8 = 1.1 :=
  traffic_factor_precedence.2.1 6 8 (Or.inr rfl)

/-- C5: a vehicle record passes the freshness/plausibility validator exactly
when both coordinates are present and inside the service bounding box, an
observation timestamp is present with age between 0 and the 15-minute
staleness threshold inclusive (so age exactly at the threshold passes and
anything strictly older or negative fails), and any reported speed lies
between 0 and 60 km/h inclusive (so exactly 60 passes, above 60 or below 0
fails). -/
theorem vehicle_validation_boundary (now : ℤ) (p : VehicleProps) :
    isVehicleDataValid now p = true ↔
      ∃ lat lon t,
        p.latitude = some lat ∧ p.longitude = some lon ∧ p.datalocal = some t ∧
        -16.2 ≤ lat ∧ lat ≤ -15.3 ∧ -48.3 ≤ lon ∧ lon ≤ -47.2 ∧
        0 ≤ now - t ∧ now - t ≤ MAX_DATA_AGE_MINUTES * 60 * 1000 ∧
        (∀ s, p.velocidade = some s → 0 ≤ s ∧ s ≤ MAX_SPEED_KMH) := by
  rcases hlat : p.latitude with _ | lat
  · simp [isVehicleDataValid, hlat]
  rcases hlon : p.longitude with _ | lon
  · simp [isVehicleDataValid, hlat, hlon]
  rcases hdl : p.datalocal with _ | t
  · simp [isVehicleDataValid, hlat, hlon, hdl]
  simp only [isVehicleDataValid, hlat, hlon, hdl]
  constructor
  · intro h
    split_ifs at h with h0 hbb hage
    push_neg at hbb hage
    refine ⟨lat, lon, t, rfl, rfl, rfl, hbb.1, hbb.2.1, hbb.2.2.1, hbb.2.2.2,
      hage.2, hage.1, ?_⟩
    intro s hs
    rw [hs] at h
    have h' : (if s < 0 ∨ s > MAX_SPEED_KMH then false else true) = true := h
    split_ifs at h' with hsp
    push_neg at hsp
    exact hsp
  · rintro ⟨la, lo, t', hla, hlo, ht', hb1, hb2, hb3, hb4, hb5, hb6, hsp⟩
    injection hla with hla
    injection hlo with hlo
    injection ht' with ht'
    subst hla
    subst hlo
    subst ht'
    have c1 : ¬(lat = 0 ∨ lon = 0) := by
      rintro (h | h) <;> subst h <;> linarith
    have c2 : ¬(lat < -16.2 ∨ lat > -15.3 ∨ lon < -48.3 ∨ lon > -47.2) := by
      push_neg
      exact ⟨hb1, hb2, hb3, hb4⟩
    have c3 : ¬(now - t > MAX_DATA_AGE_MINUTES * 60 * 1000 ∨ now - t < 0) := by
      push_neg
      exact ⟨hb6, hb5⟩
    rw [if_neg c1, if_neg c2, if_neg c3]
    rcases hs : p.velocidade with _ | s
    · rfl
    · have hsv := hsp s hs
      have c4 : ¬(s < 0 ∨ s > MAX_SPEED_KMH) := by
        push_neg
        exact ⟨hsv.1, hsv.2⟩
      show (if s < 0 ∨ s > MAX_SPEED_KMH then false else true) = true
      rw [if_neg c4]

/-- vBoundary: a vehicle sitting exactly on both acceptance boundaries —
reported speed exactly 60 km/h and, at ingestion time 900000 ms, an
observation age of exactly 15 minutes. -/
def vBoundary : VehicleProps :=
  { latitude := some (-15.8), longitude := some (-47.9), datalocal := some 0,
    velocidade := some 60, numerolinha := some ("0.123") }

/-- Witness for C5: the boundary vehicle is accepted. -/
theorem vehicle_validation_boundary_witness : isVehicleDataValid 900000 vBoundary = true :=
  (vehicle_validation_boundary 900000 vBoundary).mpr
    ⟨-15.8, -47.9, 0, rfl, rfl, rfl, by norm_num, by norm_num, by norm_num, by norm_num,
      by norm_num, by norm_num [MAX_DATA_AGE_MINUTES], by
        intro s hs
        have : (60 : ℚ) = s := by
          simpa [vBoundary] using hs
        subst this
        norm_num [MAX_SPEED_KMH]⟩

/-- Stop-feed feature as consumed by the locator: properties plus the
geometry.coordinates pair (UTM easting/northing; fewer than two entries means
the geometry is unusable and the stop is skipped). -/
structure RawStop where
  situacao : Option String
  parada : Option String
  descricao : Option String
  tipo : Option String
  coordinates : List ℚ
deriving DecidableEq

/-- Schedule-feed feature fields consulted by the core. -/
structure RawSchedule where
  cd_linha : Option String
  sentido : Option String
  hr_prevista : Option String
  parada_id : Option String
deriving DecidableEq

/-- Environment of the search functions: the three process-wide feed caches
(a missing cache behaves as the empty snapshot) together with the two
geometry helpers of the source, haversineImproved and utmToWgs84, abstracted
as functions — their trigonometric float arithmetic is not representable
exactly, and every claim under verification is independent of their values. -/
structure Env where
  hav : ℚ → ℚ → ℚ → ℚ → ℚ
  utm : ℚ → ℚ → ℚ × ℚ
  cachedPositionData : List VehicleProps
  cachedRouteData : List RawStop
  cachedScheduleData : List RawSchedule

/-- outsideBrasilia: the bounding-box rejection test repeated verbatim at
bot.ts 52, 466 and 594. -/
def outsideBrasilia (lat lon : ℚ) : Bool :=
  decide (lat < -16.2 ∨ lat > -15.3 ∨ lon < -48.3 ∨ lon > -47.2)

/-- Record pushed by findNearbyStops (bot.ts 471-478); distance is the
surfaced Math.round of the great-circle distance to the query point. -/
structure StopRec where
  id : Option String
  description : String
  distance : ℤ
  latitude : ℚ
  longitude : ℚ
  type : String
deriving DecidableEq

def defaultStopDesc : String := "Parada"
def defaultStopType : String := "Habitual"

/-- mkStopRec: the record literal of bot.ts 471-478; the description default
collapses the template string to a constant (its interpolated id is not
consulted by anything verified here). -/
def mkStopRec (stop : RawStop) (pos : ℚ × ℚ) (d : ℚ) : StopRec :=
  { id := stop.parada,
    description :=
      match stop.descricao with
      | some s => if s = "" then defaultStopDesc else s
      | none => defaultStopDesc,
    distance := mathRound d,
    latitude := pos.1,
    longitude := pos.2,
    type :=
      match stop.tipo with
      | some s => if s = "" then defaultStopType else s
      | none => defaultStopType }

/-- candidateOf: one iteration of the findNearbyStops loop (bot.ts 453-480) —
skip inactive stops, unusable geometry, out-of-bounds conversions and stops
beyond the radius, else build the record. -/
def candidateOf (env : Env) (userLat userLon maxDistance : ℚ) (stop : RawStop) :
    Option StopRec :=
  if stop.situacao ≠ some ("ATIVA") then none
  else
    match stop.coordinates with
    | c0 :: c1 :: _ =>
      let pos := env.utm c0 c1
      if outsideBrasilia pos.1 pos.2 then none
      else
        let d := env.hav userLat userLon pos.1 pos.2
        if d ≤ maxDistance then some (mkStopRec stop pos d) else none
    | _ => none

/-- nearbyStopCandidates: the filtering loop of findNearbyStops
(bot.ts 448-480) before the final sort. -/
def nearbyStopCandidates (env : Env) (userLat userLon maxDistance : ℚ) : List StopRec :=
  env.cachedRouteData.filterMap (candidateOf env userLat userLon maxDistance)

/-- stopLe: the ascending-distance comparator of bot.ts 482. -/
def stopLe (a b : StopRec) : Bool := a.distance ≤ b.distance

/-- findNearbyStops (bot.ts 448-483): active stops with convertible in-bounds
coordinates within the radius, sorted ascending by (rounded) distance; the JS
Array.sort with a numeric comparator is a stable sort, modelled by mergeSort. -/
def findNearbyStops (env : Env) (userLat userLon maxDistance : ℚ) : List StopRec :=
  (nearbyStopCandidates env userLat userLon maxDistance).mergeSort stopLe

/-- Value stored in the allStopsById map (bot.ts 54-61); the lines field is
never populated and is omitted. -/
structure StopData where
  id : String
  description : String
  latitude : ℚ
  longitude : ℚ
  type : String
deriving DecidableEq

/-- mapSet: JS Map.set — overwrite in place when the key exists, else append. -/
def mapSet (m : List (String × StopData)) (k : String) (v : StopData) :
    List (String × StopData) :=
  if m.any (fun e => e.1 = k) then m.map (fun e => if e.1 = k then (k, v) else e)
  else m ++ [(k, v)]

/-- mapGet: JS Map.get — the value at the key, if present. -/
def mapGet (m : List (String × StopData)) (k : String) : Option StopData :=
  (m.find? (fun e => e.1 = k)).map (fun e => e.2)

/-- organizeStopsByLine (bot.ts 35-69): build the id-keyed map of active,
in-bounds stops.  The source stores it in a module-level Map; here it is
recomputed from the environment. -/
def organizeStopsByLine (env : Env) : List (String × StopData) :=
  env.cachedRouteData.foldl
    (fun m stop =>
      match stop.situacao, stop.parada with
      | some st, some pid =>
        if st ≠ "ATIVA" ∨ pid = "" then m
        else
          match stop.coordinates with
          | c0 :: c1 :: _ =>
            let pos := env.utm c0 c1
            if outsideBrasilia pos.1 pos.2 then m
            else
              mapSet m pid
                { id := pid,
                  description :=
                    match stop.descricao with
                    | some s => if s = "" then defaultStopDesc else s
                    | none => defaultStopDesc,
                  latitude := pos.1,
                  longitude := pos.2,
                  type :=
                    match stop.tipo with
                    | some s => if s = "" then defaultStopType else s
                    | none => defaultStopType }
          | _ => m
      | _, _ => m)
    []

/-- getLineStopsSequence (bot.ts 280-308): stop ids of the line's schedule
entries, first occurrence order (JS Set insertion order), resolved through the
stop map; entries without a truthy parada_id contribute nothing. -/
def getLineStopsSequence (env : Env) (lineNumber : String) : List StopData :=
  let lineSchedules := env.cachedScheduleData.filter (fun s => s.cd_linha = some lineNumber)
  let stopIds : List String :=
    lineSchedules.foldl
      (fun acc s =>
        match s.parada_id with
        | some pid => if pid = "" then acc else if pid ∈ acc then acc else acc ++ [pid]
        | none => acc)
      []
  stopIds.filterMap (fun sid => mapGet (organizeStopsByLine env) sid)

-- Method strings of calculateStopsToDestination.
def noStopsTag : String := "no_nearby_stops"
def busNotNearTag : String := "bus_not_near_stop"
def sameStopTag : String := "same_stop"
def lineSeqTag : String := "line_sequence"
def distEstTag : String := "distance_estimation"

/-- Result of calculateStopsToDestination (bot.ts 316-322). -/
structure StopsResult where
  stopsCount : ℤ
  confidence : Confidence
  method : String
  nearestUserStop : Option StopRec := none
  nearestBusStop : Option StopRec := none
deriving DecidableEq

/-- calculateStopsToDestination (bot.ts 310-401).  The first element of the
sorted findNearbyStops result is the nearest stop; JS findIndex's -1 sentinel
becomes findIdx?'s none; the strict identity test between a sequence entry's
id and the stop record's possibly-undefined id is Option equality against
some. -/
def calculateStopsToDestination (env : Env) (busLat busLon userLat userLon : ℚ)
    (lineNumber : String) : StopsResult :=
  match findNearbyStops env userLat userLon 500 with
  | [] => { stopsCount := -1, confidence := .low, method := noStopsTag }
  | nearestUserStop :: _ =>
    match findNearbyStops env busLat busLon 300 with
    | [] => { stopsCount := -1, confidence := .low, method := busNotNearTag }
    | nearestBusStop :: _ =>
      if nearestBusStop.id = nearestUserStop.id then
        { stopsCount := 0, confidence := .high, method := sameStopTag,
          nearestUserStop := some nearestUserStop, nearestBusStop := some nearestBusStop }
      else
        let lineStops := getLineStopsSequence env lineNumber
        let seqCount : Option ℤ :=
          if lineStops.length > 0 then
            match lineStops.findIdx? (fun stop => nearestBusStop.id = some stop.id),
                lineStops.findIdx? (fun stop => nearestUserStop.id = some stop.id) with
            | some busStopIndex, some userStopIndex =>
              some (if busStopIndex < userStopIndex then
                      (userStopIndex : ℤ) - (busStopIndex : ℤ)
                    else ((lineStops.length : ℤ) - (busStopIndex : ℤ)) + (userStopIndex : ℤ))
            | _, _ => none
          else none
        match seqCount with
        | some c =>
          { stopsCount := max 0 c, confidence := .high, method := lineSeqTag,
            nearestUserStop := some nearestUserStop, nearestBusStop := some nearestBusStop }
        | none =>
          let d := env.hav nearestBusStop.latitude nearestBusStop.longitude
            nearestUserStop.latitude nearestUserStop.longitude
          { stopsCount := max 1 (mathRound (d / 400)), confidence := .medium,
            method := distEstTag,
            nearestUserStop := some nearestUserStop, nearestBusStop := some nearestBusStop }

/-- stopsClaimSpec: the stops-remaining decision sequence exactly as the
specification words it — indeterminate sentinel when no active stop is within
500 m of the target or 300 m of the vehicle; 0/high for an identical nearest
stop id; the forward distance along the line sequence, wrapping around the
sequence length when the target's index does not exceed the vehicle's, when
both stops are located in it; else round(distance / 400 m) floored at 1 with
medium confidence.  Stated over the count and confidence, for comparison with
calculateStopsToDestination. -/
def stopsClaimSpec (env : Env) (busLat busLon userLat userLon : ℚ) (lineNumber : String) :
    ℤ × Confidence :=
  match findNearbyStops env userLat userLon 500 with
  | [] => (-1, .low)
  | u :: _ =>
    match findNearbyStops env busLat busLon 300 with
    | [] => (-1, .low)
    | b :: _ =>
      if b.id = u.id then (0, .high)
      else
        let seq := getLineStopsSequence env lineNumber
        match seq.findIdx? (fun stop => b.id = some stop.id),
            seq.findIdx? (fun stop => u.id = some stop.id) with
        | some bi, some ui =>
          (if bi < ui then (ui : ℤ) - (bi : ℤ) else ((seq.length : ℤ) - (bi : ℤ)) + (ui : ℤ),
            .high)
        | _, _ =>
          (max 1 (mathRound (env.hav b.latitude b.longitude u.latitude u.longitude / 400)),
            .medium)

/-- C3: the stops-remaining estimator agrees with the claimed decision
sequence on count and confidence at every input — the Math.max(0, ...) of
the line-sequence branch never bites (a found index is below the sequence
length, so the wrapped count is positive), and the length > 0 guard is
subsumed by both indices being found. -/
theorem stops_decision_sequence (env : Env) (busLat busLon userLat userLon : ℚ)
    (lineNumber : String) :
    ((calculateStopsToDestination env busLat busLon userLat userLon lineNumber).stopsCount,
      (calculateStopsToDestination env busLat busLon userLat userLon lineNumber).confidence) =
      stopsClaimSpec env busLat busLon userLat userLon lineNumber := by
  unfold calculateStopsToDestination stopsClaimSpec
  rcases hu : findNearbyStops env userLat userLon 500 with _ | ⟨u, us⟩
  · rfl
  rcases hb : findNearbyStops env busLat busLon 300 with _ | ⟨b, bs⟩
  · rfl
  by_cases hid : b.id = u.id
  · simp only [if_pos hid]
  · simp only [if_neg hid]
    rcases hbi : (getLineStopsSequence env lineNumber).findIdx?
        (fun stop => b.id = some stop.id) with _ | bi
    · simp only [hbi, ite_self]
    · rcases hui : (getLineStopsSequence env lineNumber).findIdx?
          (fun stop => u.id = some stop.id) with _ | ui
      · simp only [hbi, hui, ite_self]
      · have hbl : bi < (getLineStopsSequence env lineNumber).length :=
          (List.findIdx?_eq_some_iff_findIdx_eq.mp hbi).1
        have hlen : (getLineStopsSequence env lineNumber).length > 0 :=
          Nat.lt_of_le_of_lt (Nat.zero_le bi) hbl
        simp only [hbi, hui, if_pos hlen, Prod.mk.injEq]
        constructor
        · split_ifs with hlt <;> omega
        · trivial

/-- Which of the three reply paths searchBuses takes (bot.ts 164-183): the
not-ready reply without both caches, the direct vehicle search when no stop
lies within 800 m, else the stop-based search. -/
inductive SearchPath
| notReady
| direct
| stopBased
deriving DecidableEq

def searchBusesPath (env : Env) (hasPositionCache hasRouteCache : Bool)
    (userLat userLon : ℚ) : SearchPath :=
  if ¬hasPositionCache ∨ ¬hasRouteCache then .notReady
  else if findNearbyStops env userLat userLon 800 = [] then .direct
  else .stopBased

/-- candidateOf produces a record exactly for an active stop with a usable,
in-bounds, in-radius geometry, and the record is the one built from its
converted position and distance. -/
theorem candidateOf_eq_some (env : Env) (userLat userLon maxDistance : ℚ)
    (stop : RawStop) (r : StopRec) :
    candidateOf env userLat userLon maxDistance stop = some r ↔
      stop.situacao = some ("ATIVA") ∧
      ∃ c0 c1 rest, stop.coordinates = c0 :: c1 :: rest ∧
        outsideBrasilia (env.utm c0 c1).1 (env.utm c0 c1).2 = false ∧
        env.hav userLat userLon (env.utm c0 c1).1 (env.utm c0 c1).2 ≤ maxDistance ∧
        r = mkStopRec stop (env.utm c0 c1)
          (env.hav userLat userLon (env.utm c0 c1).1 (env.utm c0 c1).2) := by
  unfold candidateOf
  by_cases hsit : stop.situacao = some ("ATIVA")
  · rw [if_neg (by simp [hsit])]
    rcases hc : stop.coordinates with _ | ⟨c0, _ | ⟨c1, rest⟩⟩
    · simp [hsit]
    · simp [hsit]
    · simp only [hsit, true_and]
      split_ifs with hout hd
      · simp [hout]
      · constructor
        · intro h
          refine ⟨c0, c1, rest, rfl, by simpa using hout, hd, ?_⟩
          exact (Option.some.injEq _ _).mp h.symm
        · rintro ⟨c0', c1', rest', hcc, _, _, hr⟩
          obtain ⟨h0, h1, _⟩ : c0 = c0' ∧ c1 = c1' ∧ rest = rest' := by
            simpa using hcc
          subst h0
          subst h1
          rw [hr]
      · constructor
        · intro h
          simp at h
        · rintro ⟨c0', c1', rest', hcc, _, hdist, _⟩
          obtain ⟨h0, h1, _⟩ : c0 = c0' ∧ c1 = c1' ∧ rest = rest' := by
            simpa using hcc
          subst h0
          subst h1
          exact absurd hdist hd
  · rw [if_pos (by simp [hsit])]
    simp [hsit]

theorem stopLe_trans (a b c : StopRec) :
    stopLe a b = true → stopLe b c = true → stopLe a c = true := by
  simp only [stopLe, decide_eq_true_eq]
  omega

theorem stopLe_total (a b : StopRec) : (stopLe a b || stopLe b a) = true := by
  simp only [stopLe, Bool.or_eq_true, decide_eq_true_eq]
  omega

/-- C8: findNearbyStops returns exactly the active stops whose converted
position is usable, inside the bounding box and within the radius; the result
is sorted ascending by the surfaced (rounded) distance, ties keeping the feed
order (stability of the sort); and an empty result at the 800 m search radius
sends searchBuses down the direct vehicle search path. -/
theorem stop_locator_contract (env : Env) (userLat userLon maxDistance : ℚ) :
    (∀ r, r ∈ findNearbyStops env userLat userLon maxDistance ↔
        ∃ stop ∈ env.cachedRouteData,
          stop.situacao = some ("ATIVA") ∧
          ∃ c0 c1 rest, stop.coordinates = c0 :: c1 :: rest ∧
            outsideBrasilia (env.utm c0 c1).1 (env.utm c0 c1).2 = false ∧
            env.hav userLat userLon (env.utm c0 c1).1 (env.utm c0 c1).2 ≤ maxDistance ∧
            r = mkStopRec stop (env.utm c0 c1)
              (env.hav userLat userLon (env.utm c0 c1).1 (env.utm c0 c1).2)) ∧
    (findNearbyStops env userLat userLon maxDistance).Pairwise
      (fun a b => a.distance ≤ b.distance) ∧
    (∀ a b : StopRec, a.distance ≤ b.distance →
        [a, b].Sublist (nearbyStopCandidates env userLat userLon maxDistance) →
        [a, b].Sublist (findNearbyStops env userLat userLon maxDistance)) ∧
    (findNearbyStops env userLat userLon 800 = [] →
        searchBusesPath env true true userLat userLon = SearchPath.direct) := by
  refine ⟨?_, ?_, ?_, ?_⟩
  · intro r
    rw [findNearbyStops, List.mem_mergeSort, nearbyStopCandidates, List.mem_filterMap]
    constructor
    · rintro ⟨stop, hmem, hc⟩
      exact ⟨stop, hmem, (candidateOf_eq_some env userLat userLon maxDistance stop r).mp hc⟩
    · rintro ⟨stop, hmem, hc⟩
      exact ⟨stop, hmem, (candidateOf_eq_some env userLat userLon maxDistance stop r).mpr hc⟩
  · exact (List.sorted_mergeSort stopLe_trans stopLe_total _).imp
      (fun h => by simpa [stopLe] using h)
  · intro a b hab hsub
    exact List.sublist_mergeSort stopLe_trans stopLe_total
      (by simp [List.pairwise_cons, stopLe, hab]) hsub
  · intro h
    simp [searchBusesPath, h]

/-- envEmpty: the environment before any feed has produced data. -/
def envEmpty : Env :=
  { hav := fun _ _ _ _ => 0, utm := fun _ _ => (0, 0),
    cachedPositionData := [], cachedRouteData := [], cachedScheduleData := [] }

/-- Witness for C8: with no stops cached the locator is empty and the search
falls back to the direct path. -/
theorem stop_locator_contract_witness :
    searchBusesPath envEmpty true true 0 0 = SearchPath.direct :=
  (stop_locator_contract envEmpty 0 0 800).2.2.2
    (by simp [findNearbyStops, nearbyStopCandidates, envEmpty])

/-- lineLabel: props.numerolinha || the fallback label (bot.ts 108, 520); the
empty string is falsy in JS. -/
def lineLabel (numerolinha : Option String) : String :=
  match numerolinha with
  | some s => if s = "" then "Sem linha" else s
  | none => "Sem linha"

/-- lineMatches: the line filter of bot.ts 94-98 and 496-500 — pass everything
for the ALL search, else compare trimmed upper-cased line codes. -/
def lineMatches (busLine : String) (numerolinha : Option String) : Bool :=
  if busLine = "ALL" then true
  else jsToUpper (jsTrim (numerolinha.getD (""))) = jsToUpper (jsTrim busLine)

/-- Record pushed by searchBusesDirectly (bot.ts 107-113).  It carries no
confidence field — the arrival estimate's confidence is computed but not
stored — so the field is an Option that this path leaves at none; the
nextSchedules and dataAge fields are omitted (nothing verified reads them). -/
structure DirectBusRec where
  linha : String
  distance : ℤ
  arrivalTime : ℤ
  confidence : Option Confidence
deriving DecidableEq

/-- directLe: the ascending-distance comparator of bot.ts 687. -/
def directLe (a b : DirectBusRec) : Bool := a.distance ≤ b.distance

/-- filterAndSortBuses (bot.ts 682-688): keep a record unless its confidence
field is the string low and its distance is at least 1000 m, then sort by
distance (stable JS sort, modelled by mergeSort).  A record without the
field — JS undefined — never equals low and is always kept. -/
def filterAndSortBuses (nearbyBuses : List DirectBusRec) : List DirectBusRec :=
  (nearbyBuses.filter
    (fun bus => decide (bus.confidence ≠ some Confidence.low ∨ bus.distance < 1000))).mergeSort
    directLe

/-- directCandidateOf: one iteration of the searchBusesDirectly vehicle loop
(bot.ts 83-114); validated vehicles always carry both coordinates, read here
with a default that the validator guarantees unused. -/
def directCandidateOf (env : Env) (now : ℤ) (dayOfWeek hour : ℕ) (userLat userLon : ℚ)
    (busLine : String) (v : VehicleProps) : Option DirectBusRec :=
  if ¬ isVehicleDataValid now v then none
  else if ¬ isVehicleInOperation v then none
  else if ¬ lineMatches busLine v.numerolinha then none
  else
    let distance := env.hav userLat userLon (v.latitude.getD 0) (v.longitude.getD 0)
    if distance > MAX_SEARCH_RADIUS_M then none
    else
      some { linha := lineLabel v.numerolinha,
             distance := mathRound distance,
             arrivalTime := (calculateArrivalTime distance v.velocidade
               (getTrafficFactor dayOfWeek hour)).timeMinutes,
             confidence := none }

/-- The nearbyBuses list searchBusesDirectly accumulates (bot.ts 74-114). -/
def searchBusesDirectlyCandidates (env : Env) (now : ℤ) (dayOfWeek hour : ℕ)
    (userLat userLon : ℚ) (busLine : String) : List DirectBusRec :=
  env.cachedPositionData.filterMap (directCandidateOf env now dayOfWeek hour userLat userLon busLine)

/-- The filteredBuses list of bot.ts 116, fed to the per-line grouping. -/
def searchBusesDirectlyFiltered (env : Env) (now : ℤ) (dayOfWeek hour : ℕ)
    (userLat userLon : ℚ) (busLine : String) : List DirectBusRec :=
  filterAndSortBuses (searchBusesDirectlyCandidates env now dayOfWeek hour userLat userLon busLine)

/-- Record pushed by findBusesNearStop (bot.ts 519-531); nextSchedules,
dataAge and the raw vehicle position are omitted (nothing verified reads
them). -/
structure StopBusRec where
  linha : String
  distance : ℤ
  arrivalTime : ℤ
  confidence : Confidence
  stopsToDestination : ℤ
  stopsConfidence : Confidence
  stopsMethod : String
deriving DecidableEq

/-- busSortLe: the comparator of bot.ts 534-540 — stops-remaining ascending,
then arrival time. -/
def busSortLe (a b : StopBusRec) : Bool :=
  if a.stopsToDestination = b.stopsToDestination then a.arrivalTime ≤ b.arrivalTime
  else a.stopsToDestination ≤ b.stopsToDestination

/-- busNearStopCandidateOf: one iteration of the findBusesNearStop vehicle
loop (bot.ts 490-532); the direction argument of the source only feeds the
schedule lookup, which is omitted. -/
def busNearStopCandidateOf (env : Env) (now : ℤ) (dayOfWeek hour : ℕ)
    (stopLat stopLon : ℚ) (busLine : String) (v : VehicleProps) : Option StopBusRec :=
  if ¬ (isVehicleDataValid now v ∧ isVehicleInOperation v) then none
  else if ¬ lineMatches busLine v.numerolinha then none
  else
    let distance := env.hav stopLat stopLon (v.latitude.getD 0) (v.longitude.getD 0)
    if distance > 2000 then none
    else
      let arrivalData := calculateArrivalTime distance v.velocidade
        (getTrafficFactor dayOfWeek hour)
      let stopsInfo := calculateStopsToDestination env (v.latitude.getD 0) (v.longitude.getD 0)
        stopLat stopLon (v.numerolinha.getD (""))
      some { linha := lineLabel v.numerolinha,
             distance := mathRound distance,
             arrivalTime := arrivalData.timeMinutes,
             confidence := arrivalData.confidence,
             stopsToDestination := stopsInfo.stopsCount,
             stopsConfidence := stopsInfo.confidence,
             stopsMethod := stopsInfo.method }

/-- findBusesNearStop (bot.ts 485-541). -/
def findBusesNearStop (env : Env) (now : ℤ) (dayOfWeek hour : ℕ) (stopLat stopLon : ℚ)
    (busLine : String) : List StopBusRec :=
  (env.cachedPositionData.filterMap
    (busNearStopCandidateOf env now dayOfWeek hour stopLat stopLon busLine)).mergeSort busSortLe

/-- Per-line row of the stop-based searchBuses results (bot.ts 202-213),
restricted to the fields its grouping and sorting read. -/
structure ResultRec where
  linha : String
  stopDistance : ℤ
  stopsToDestination : ℤ
deriving DecidableEq

/-- pickBetter: the per-line replacement rule of bot.ts 227-232 — a later
result displaces the stored one only when its stops-remaining is strictly
smaller. -/
def pickBetter (prev r : ResultRec) : ResultRec :=
  if r.stopsToDestination < prev.stopsToDestination then r else prev

/-- bestPerLine: the busesByLine object of bot.ts 226-232 (JS objects keep
string-key insertion order; an update keeps the key's position). -/
def bestPerLine (results : List ResultRec) : List (String × ResultRec) :=
  results.foldl
    (fun acc r =>
      match acc.find? (fun e => e.1 = r.linha) with
      | none => acc ++ [(r.linha, r)]
      | some e => acc.map (fun x => if x.1 = r.linha then (r.linha, pickBetter e.2 r) else x))
    []

/-- resultLe: the final comparator of bot.ts 238-243 — stops-remaining
ascending, ties by stop distance. -/
def resultLe (a b : ResultRec) : Bool :=
  if a.stopsToDestination = b.stopsToDestination then a.stopDistance ≤ b.stopDistance
  else a.stopsToDestination ≤ b.stopsToDestination

/-- sortedResults with the slice applied comes from bot.ts 237-244. -/
def sortedResults (results : List ResultRec) : List ResultRec :=
  ((bestPerLine results).map (fun e => e.2)).mergeSort resultLe

/-- stopSearchDisplay: rows the stop-based message shows and the
suppressed-line count it reports; the message template of bot.ts 235-267
slices to 8 rows and contains no mention of dropped lines, hence none. -/
def stopSearchDisplay (results : List ResultRec) : List ResultRec × Option ℕ :=
  ((sortedResults results).take 8, none)

def maxLines : ℕ := 10

/-- directSearchDisplay: rows the direct-search message shows and the
suppressed-line count it reports (bot.ts 149-157). -/
def directSearchDisplay (results : List String) : List String × Option ℕ :=
  (results.take maxLines,
    if results.length > maxLines then some (results.length - maxLines) else none)

/-- C6 amended: filterAndSortBuses keeps exactly the records whose confidence
field differs from low or whose distance is under 1000 m; but the records the
direct search builds never carry the confidence field, so on that path the
filter drops nothing — the filtered list is a permutation of the candidate
list whatever the vehicles' estimate confidences are. -/
theorem low_confidence_filter_amended :
    (∀ (buses : List DirectBusRec) (b : DirectBusRec),
        b ∈ filterAndSortBuses buses ↔
          b ∈ buses ∧ (b.confidence ≠ some Confidence.low ∨ b.distance < 1000)) ∧
    (∀ (env : Env) (now : ℤ) (dayOfWeek hour : ℕ) (userLat userLon : ℚ) (busLine : String)
        (b : DirectBusRec),
        b ∈ searchBusesDirectlyCandidates env now dayOfWeek hour userLat userLon busLine →
          b.confidence = none) ∧
    (∀ (env : Env) (now : ℤ) (dayOfWeek hour : ℕ) (userLat userLon : ℚ) (busLine : String),
        (searchBusesDirectlyFiltered env now dayOfWeek hour userLat userLon busLine).Perm
          (searchBusesDirectlyCandidates env now dayOfWeek hour userLat userLon busLine)) := by
  have hmemnone : ∀ (env : Env) (now : ℤ) (dayOfWeek hour : ℕ) (userLat userLon : ℚ)
      (busLine : String) (b : DirectBusRec),
      b ∈ searchBusesDirectlyCandidates env now dayOfWeek hour userLat userLon busLine →
        b.confidence = none := by
    intro env now dayOfWeek hour userLat userLon busLine b hb
    rw [searchBusesDirectlyCandidates, List.mem_filterMap] at hb
    obtain ⟨v, _, hc⟩ := hb
    simp only [directCandidateOf] at hc
    split_ifs at hc
    obtain rfl := (Option.some.injEq _ _).mp hc
    rfl
  refine ⟨?_, hmemnone, ?_⟩
  · intro buses b
    rw [filterAndSortBuses, List.mem_mergeSort, List.mem_filter, decide_eq_true_eq]
  · intro env now dayOfWeek hour userLat userLon busLine
    rw [searchBusesDirectlyFiltered, filterAndSortBuses]
    have hfil : (searchBusesDirectlyCandidates env now dayOfWeek hour userLat userLon
        busLine).filter
          (fun bus => decide (bus.confidence ≠ some Confidence.low ∨ bus.distance < 1000)) =
        searchBusesDirectlyCandidates env now dayOfWeek hour userLat userLon busLine := by
      rw [List.filter_eq_self]
      intro b hb
      rw [decide_eq_true_eq]
      exact Or.inl (by simp [hmemnone env now dayOfWeek hour userLat userLon busLine b hb])
    rw [hfil]
    exact List.mergeSort_perm _ _

/-- Witness for the amended C6: a far record without the confidence field is
kept. -/
theorem low_confidence_filter_amended_witness :
    (⟨"W3", 4000, 5, none⟩ : DirectBusRec) ∈
      filterAndSortBuses [⟨"W3", 4000, 5, none⟩] :=
  (low_confidence_filter_amended.1 _ _).mpr ⟨List.mem_singleton.mpr rfl, Or.inl (by simp)⟩

/-- vFar: a fully valid in-operation vehicle whose reported speed is real and
whose distance oracle places it 4000 m from the rider. -/
def vFar : VehicleProps :=
  { latitude := some (-15.8), longitude := some (-47.9), datalocal := some 0,
    velocidade := some 30, numerolinha := some ("0.123") }

/-- envFar: only vFar is cached and every great-circle distance is 4000 m. -/
def envFar : Env :=
  { hav := fun _ _ _ _ => 4000, utm := fun _ _ => (0, 0),
    cachedPositionData := [vFar], cachedRouteData := [], cachedScheduleData := [] }

/-- C6 counterexample: vFar's arrival estimate has confidence low (4000 m is
past the 3000 m downgrade bound) and its distance 4000 m is not under 1000 m,
yet the direct search keeps it — the claim requires it dropped.  The
confidence never reaches the record the filter inspects. -/
theorem low_confidence_direct_kept :
    (calculateArrivalTime 4000 (some 30) (getTrafficFactor 3 12)).confidence =
      Confidence.low ∧
    searchBusesDirectlyFiltered envFar 0 3 12 0 0 ("ALL") =
      [⟨"0.123", 4000,
        (calculateArrivalTime 4000 (some 30) (getTrafficFactor 3 12)).timeMinutes,
        none⟩] := by
  constructor
  · rw [arrival_confidence_eq]
    norm_num [usedRealSpeed]
  · have hval : isVehicleDataValid 0 vFar = true := by
      norm_num [isVehicleDataValid, vFar, MAX_DATA_AGE_MINUTES, MAX_SPEED_KMH]
    have hop : isVehicleInOperation vFar = true := by decide
    have hlm : lineMatches ("ALL") vFar.numerolinha = true := by
      rw [lineMatches, if_pos rfl]
    have hcand : searchBusesDirectlyCandidates envFar 0 3 12 0 0 ("ALL") =
        [⟨"0.123", 4000,
          (calculateArrivalTime 4000 (some 30) (getTrafficFactor 3 12)).timeMinutes,
          none⟩] := by
      have hlist : envFar.cachedPositionData = [vFar] := rfl
      rw [searchBusesDirectlyCandidates, hlist, List.filterMap_cons, List.filterMap_nil]
      have hdc : directCandidateOf envFar 0 3 12 0 0 ("ALL") vFar =
          some ⟨"0.123", 4000,
            (calculateArrivalTime 4000 (some 30) (getTrafficFactor 3 12)).timeMinutes,
            none⟩ := by
        simp only [directCandidateOf, hval, hop, hlm, not_true, if_false]
        norm_num [envFar, vFar, MAX_SEARCH_RADIUS_M, lineLabel, mathRound]
        exact fun h => absurd h (by decide)
      rw [hdc]
    rw [searchBusesDirectlyFiltered, hcand, filterAndSortBuses]
    rw [List.filter_cons_of_pos (by simp), List.filter_nil, List.mergeSort_singleton]

/-- C7 amended: the direct-search message reports how many per-line rows were
cut by its cap of 10 whenever there are more, and reports nothing otherwise;
the stop-based message slices to 8 rows and never reports a suppressed-line
count — rows beyond its cap are dropped silently. -/
theorem row_cap_reporting :
    (∀ results : List String, maxLines < results.length →
        (directSearchDisplay results).2 = some (results.length - maxLines)) ∧
    (∀ results : List String, results.length ≤ maxLines →
        (directSearchDisplay results).2 = none) ∧
    (∀ results : List ResultRec, (stopSearchDisplay results).2 = none) ∧
    (∀ results : List ResultRec,
        (stopSearchDisplay results).1.length = min 8 (bestPerLine results).length) := by
  refine ⟨?_, ?_, ?_, ?_⟩
  · intro results h
    show (if results.length > maxLines then some (results.length - maxLines) else none) = _
    rw [if_pos h]
  · intro results h
    show (if results.length > maxLines then some (results.length - maxLines) else none) = _
    rw [if_neg (by omega)]
  · intro results
    rfl
  · intro results
    show ((sortedResults results).take 8).length = _
    rw [List.length_take, sortedResults, (List.mergeSort_perm _ _).length_eq,
      List.length_map]

/-- strs11: eleven distinct per-line rows for the direct path. -/
def strs11 : List String :=
  ["a", "b", "c", "d", "e", "f", "g", "h", "i", "j", "k"]

/-- Witness for the amended C7: with 11 rows the direct message reports 1
suppressed line. -/
theorem row_cap_reporting_witness :
    (directSearchDisplay strs11).2 = some (strs11.length - maxLines) :=
  row_cap_reporting.1 strs11 (by decide)

/-- rs9: nine rows on nine distinct lines for the stop-based path. -/
def rs9 : List ResultRec :=
  [⟨"L1", 1, 1⟩, ⟨"L2", 2, 2⟩, ⟨"L3", 3, 3⟩, ⟨"L4", 4, 4⟩, ⟨"L5", 5, 5⟩,
    ⟨"L6", 6, 6⟩, ⟨"L7", 7, 7⟩, ⟨"L8", 8, 8⟩, ⟨"L9", 9, 9⟩]

/-- C7 counterexample: nine distinct-line rows exceed the stop-based cap of 8,
the message shows 8 of them, and no suppressed-line count is reported
anywhere — the ninth row vanishes silently. -/
theorem stop_path_silent_truncation :
    rs9.length = 9 ∧
    (stopSearchDisplay rs9).1.length = 8 ∧
    (stopSearchDisplay rs9).2 = none := by
  refine ⟨by decide, ?_, rfl⟩
  show ((sortedResults rs9).take 8).length = 8
  rw [List.length_take]
  have h1 : (sortedResults rs9).length = 9 := by
    rw [sortedResults, (List.mergeSort_perm _ _).length_eq, List.length_map]
    decide
  rw [h1]
  norm_num

theorem busSortLe_trans (a b c : StopBusRec) :
    busSortLe a b = true → busSortLe b c = true → busSortLe a c = true := by
  intro h1 h2
  simp only [busSortLe] at h1 h2 ⊢
  split_ifs at h1 h2 ⊢ <;> simp only [decide_eq_true_eq] at h1 h2 ⊢ <;> omega

theorem busSortLe_total (a b : StopBusRec) : (busSortLe a b || busSortLe b a) = true := by
  simp only [busSortLe, Bool.or_eq_true]
  split_ifs <;> simp only [decide_eq_true_eq] <;> omega

theorem resultLe_trans (a b c : ResultRec) :
    resultLe a b = true → resultLe b c = true → resultLe a c = true := by
  intro h1 h2
  simp only [resultLe] at h1 h2 ⊢
  split_ifs at h1 h2 ⊢ <;> simp only [decide_eq_true_eq] at h1 h2 ⊢ <;> omega

theorem resultLe_total (a b : ResultRec) : (resultLe a b || resultLe b a) = true := by
  simp only [resultLe, Bool.or_eq_true]
  split_ifs <;> simp only [decide_eq_true_eq] <;> omega

/-- Every stops-remaining result is at least the -1 sentinel. -/
theorem stopsCount_lower_bound (env : Env) (busLat busLon userLat userLon : ℚ)
    (lineNumber : String) :
    -1 ≤ (calculateStopsToDestination env busLat busLon userLat userLon
      lineNumber).stopsCount := by
  unfold calculateStopsToDestination
  rcases findNearbyStops env userLat userLon 500 with _ | ⟨u, us⟩
  · norm_num
  rcases findNearbyStops env busLat busLon 300 with _ | ⟨b, bs⟩
  · norm_num
  by_cases hid : b.id = u.id
  · simp only [if_pos hid]
    norm_num
  · simp only [if_neg hid]
    rcases hbi : (getLineStopsSequence env lineNumber).findIdx?
        (fun stop => b.id = some stop.id) with _ | bi
    · simp only [hbi, ite_self]
      exact le_trans (by norm_num) (le_max_left _ _)
    · rcases hui : (getLineStopsSequence env lineNumber).findIdx?
          (fun stop => u.id = some stop.id) with _ | ui
      · simp only [hbi, hui, ite_self]
        exact le_trans (by norm_num) (le_max_left _ _)
      · by_cases hlen : (getLineStopsSequence env lineNumber).length > 0
        · simp only [hbi, hui, if_pos hlen]
          exact le_trans (by norm_num) (le_max_left _ _)
        · simp only [hbi, hui, if_neg hlen]
          exact le_trans (by norm_num) (le_max_left _ _)

/-- C10: the indeterminate branches return the sentinel -1; every
stops-remaining value is at least -1; the findBusesNearStop ordering and the
final stop-based ordering both sort stops-remaining ascending, so a record
with the -1 sentinel is never preceded by one with a determinate count; and
the per-line replacement rule keeps an indeterminate result over any
determinate one (including a vehicle already at the stop, count 0) and
installs an indeterminate result over a stored determinate one. -/
theorem indeterminate_ordering :
    (∀ (env : Env) (busLat busLon userLat userLon : ℚ) (lineNumber : String),
        findNearbyStops env userLat userLon 500 = [] ∨
          findNearbyStops env busLat busLon 300 = [] →
        (calculateStopsToDestination env busLat busLon userLat userLon
          lineNumber).stopsCount = -1) ∧
    (∀ (env : Env) (busLat busLon userLat userLon : ℚ) (lineNumber : String),
        -1 ≤ (calculateStopsToDestination env busLat busLon userLat userLon
          lineNumber).stopsCount) ∧
    (∀ (env : Env) (now : ℤ) (dayOfWeek hour : ℕ) (stopLat stopLon : ℚ)
        (busLine : String),
        (findBusesNearStop env now dayOfWeek hour stopLat stopLon busLine).Pairwise
          (fun a b => b.stopsToDestination = -1 → a.stopsToDestination = -1)) ∧
    (∀ results : List ResultRec,
        (sortedResults results).Pairwise
          (fun a b => a.stopsToDestination ≤ b.stopsToDestination)) ∧
    (∀ prev r : ResultRec, prev.stopsToDestination = -1 → -1 ≤ r.stopsToDestination →
        pickBetter prev r = prev) ∧
    (∀ prev r : ResultRec, r.stopsToDestination = -1 → 0 ≤ prev.stopsToDestination →
        pickBetter prev r = r) := by
  refine ⟨?_, ?_, ?_, ?_, ?_, ?_⟩
  · intro env busLat busLon userLat userLon lineNumber h
    unfold calculateStopsToDestination
    rcases h with h | h
    · rw [h]
    · rcases findNearbyStops env userLat userLon 500 with _ | ⟨u, us⟩
      · rfl
      · rw [h]
  · intro env busLat busLon userLat userLon lineNumber
    exact stopsCount_lower_bound env busLat busLon userLat userLon lineNumber
  · intro env now dayOfWeek hour stopLat stopLon busLine
    have hbound : ∀ x ∈ findBusesNearStop env now dayOfWeek hour stopLat stopLon busLine,
        -1 ≤ x.stopsToDestination := by
      intro x hx
      rw [findBusesNearStop, List.mem_mergeSort, List.mem_filterMap] at hx
      obtain ⟨v, _, hc⟩ := hx
      simp only [busNearStopCandidateOf] at hc
      split_ifs at hc
      obtain rfl := (Option.some.injEq _ _).mp hc
      exact stopsCount_lower_bound _ _ _ _ _ _
    have hsorted : (findBusesNearStop env now dayOfWeek hour stopLat stopLon
        busLine).Pairwise (fun a b => busSortLe a b = true) :=
      List.sorted_mergeSort busSortLe_trans busSortLe_total _
    refine hsorted.imp_of_mem ?_
    intro a b ha hb hr hneg
    have hab := hbound a ha
    simp only [busSortLe] at hr
    split_ifs at hr with he <;> simp only [decide_eq_true_eq] at hr <;> omega
  · intro results
    refine (List.sorted_mergeSort resultLe_trans resultLe_total _).imp ?_
    intro a b h
    simp only [resultLe] at h
    split_ifs at h with he <;> simp only [decide_eq_true_eq] at h <;> omega
  · intro prev r h1 h2
    rw [pickBetter, if_neg (by omega)]
  · intro prev r h1 h2
    rw [pickBetter, if_pos (by omega)]

/-- Witness for C10: a sentinel result displaces a stored count-0 result. -/
theorem indeterminate_ordering_witness :
    pickBetter ⟨"W3", 5, 0⟩ ⟨"0.123", 9, -1⟩ = ⟨"0.123", 9, -1⟩ :=
  indeterminate_ordering.2.2.2.2.2 ⟨"W3", 5, 0⟩ ⟨"0.123", 9, -1⟩ rfl (by norm_num)

end BusBot
